import Mathlib

set_option autoImplicit false

/-!
Shallow embedding of `redditImageDownloader.py`: the Imgur URL resolver
(`imgur_handler`), the download helper (`download_image`), and the main
submission-processing loop (`reddit_image_downloader`).  HTTP traffic, the
filesystem and the listing collaborator are modelled explicitly; every network
request, glob check and file write performed by the code is recorded in an
effect trace.  Informational logging that does not affect control flow is
modelled only where the analysed properties mention it.
-/

namespace ImgurDownloader

/-- Occurrence test on character lists: `pat` appears as a contiguous
sublist. -/
def occursIn (pat : List Char) : List Char → Bool
  | [] => pat.isEmpty
  | c :: cs => pat.isPrefixOf (c :: cs) || occursIn pat cs

/-- Python substring containment, `pat in s`: true when `pat` occurs somewhere
in `s` (and always true for the empty pattern). -/
def pyIn (pat s : String) : Bool :=
  occursIn pat.data s.data

/-- Characters before the first occurrence of `sep`: Python
`l.split(sep)[0]` for a one-character separator. -/
def takeUntilChar (sep : Char) : List Char → List Char
  | [] => []
  | c :: cs => if c == sep then [] else c :: takeUntilChar sep cs

/-- Characters after the last occurrence of `sep` (the whole list when `sep`
does not occur): Python `l.split(sep)[-1]` for a one-character separator. -/
def afterLastChar (sep : Char) (l : List Char) : List Char :=
  l.foldl (fun acc c => if c == sep then [] else acc ++ [c]) []

/-- Python exceptions that the script can raise while processing a
submission.  `requests` raises `connectionError` on network failure;
`keyError` models indexing a missing header key; `typeError` models
subscripting the `None` returned by a failed `soup.find`; `nameError` models
reading a variable that was never bound. -/
inductive PyError where
  | connectionError
  | keyError (key : String)
  | typeError
  | nameError (name : String)
  deriving Repr, DecidableEq

/-- One HTTP response as the script observes it.  `location` and
`contentType` and `contentLength` are the corresponding response headers
(`none` when the header is absent; `requests` header lookup is
case-insensitive, so the field stands for any capitalisation).  The body is
modelled through the two queries BeautifulSoup answers about it:
`albumLinks` is the list of `href` attributes of the anchors selected by
`.album-view-image-link a`, in document order, and `imageSrcHref` is the
`href` of `soup.find` for a `link` element with `rel=image_src` (`none` when
no such element exists). -/
structure Response where
  status : Nat
  location : Option String := none
  contentType : Option String := none
  contentLength : Option Nat := none
  albumLinks : List String := []
  imageSrcHref : Option String := none
  deriving Repr, DecidableEq

/-- The HTTP collaborator: HEAD (with its `allow_redirects` flag) and GET.
A `.error` result models a raised exception instead of a response. -/
structure Network where
  head : String → Bool → Except PyError Response
  get : String → Except PyError Response

/-- Observable side effects of a run, in order: HTTP requests, the glob
deduplication check, file writes, and the log lines the analysed behaviour
depends on. -/
inductive Effect where
  | headReq (url : String) (allowRedirects : Bool)
  | getReq (url : String)
  | globCheck (pat : String)
  | fileWrite (name : String)
  | logInfo (msg : String)
  | logWarning (msg : String)
  | logError (msg : String)
  deriving Repr, DecidableEq

/-- Schema-less URL fix-up applied by `imgur_handler`: if the URL starts with
`//`, prepend `http:`. -/
def schemaFix (u : String) : String :=
  if ("//".data).isPrefixOf u.data then "http:" ++ u else u

/-- Embedding of `imgur_handler(submission_url)` (lines 32-82): classify the
URL by substring tests, in order album page, single-image page, direct image;
return the collected image URLs together with the trace of HTTP requests
made.  In the single-image branch a HEAD with redirects disabled is issued:
on 301 the `location` header is read into a local that is never appended (the
`images.append` sits only in the 200 branch), on 200 a follow-up GET is
parsed for the `image_src` link. -/
def imgur_handler (net : Network) (submission_url : String) :
    List Effect × Except PyError (List String) :=
  if pyIn "//imgur.com/a/" submission_url then
    match net.get submission_url with
    | .error e => ([.getReq submission_url], .error e)
    | .ok response =>
      if response.status = 200 then
        ([.getReq submission_url], .ok (response.albumLinks.map schemaFix))
      else
        ([.getReq submission_url], .ok [])
  else if pyIn "//imgur.com/" submission_url then
    match net.head submission_url false with
    | .error e => ([.headReq submission_url false], .error e)
    | .ok response =>
      if response.status = 301 then
        match response.location with
        | none => ([.headReq submission_url false], .error (.keyError "location"))
        | some _ => ([.headReq submission_url false], .ok [])
      else if response.status = 200 then
        match net.get submission_url with
        | .error e => ([.headReq submission_url false, .getReq submission_url], .error e)
        | .ok response2 =>
          match response2.imageSrcHref with
          | none => ([.headReq submission_url false, .getReq submission_url], .error .typeError)
          | some href =>
            ([.headReq submission_url false, .getReq submission_url], .ok [schemaFix href])
      else
        ([.headReq submission_url false], .ok [])
  else if pyIn "//i.imgur.com/" submission_url then
    ([], .ok [submission_url])
  else
    ([], .ok [])

/-- Embedding of `download_image(image_url, local_filename)` (lines 15-29):
GET the URL, read the `Content-Length` header (a `KeyError` when absent),
and write the file only when the status is 200. -/
def download_image (net : Network) (image_url local_filename : String) :
    List Effect × Except PyError Unit :=
  match net.get image_url with
  | .error e => ([.getReq image_url], .error e)
  | .ok response =>
    match response.contentLength with
    | none => ([.getReq image_url], .error (.keyError "Content-Length"))
    | some _ =>
      if response.status = 200 then
        ([.getReq image_url, .fileWrite local_filename], .ok ())
      else
        ([.getReq image_url], .ok ())

/-- Embedding of `image_url.split('/')[-1].split('#')[0].split('?')[0]`
(lines 119 and 130): last `/`-segment, then the part before the first `#`,
then the part before the first `?`. -/
def image_filename_of (image_url : String) : String :=
  ⟨takeUntilChar '?' (takeUntilChar '#' (afterLastChar '/' image_url.data))⟩

/-- Python format `{:02d}` on a natural number: zero-padded to two digits. -/
def fmt02 (n : Nat) : String :=
  if n < 10 then "0" ++ toString n else toString n

/-- A post record as provided by the listing collaborator. -/
structure Submission where
  id : String
  title : String
  url : String
  score : Int
  deriving Repr, DecidableEq

/-- Deduplication glob stem: `'reddit_{}_{}_'.format(subreddit, id)`; the
source appends `*` to form the glob pattern. -/
def dedup_stem (subreddit id : String) : String :=
  "reddit_" ++ subreddit ++ "_" ++ id ++ "_"

/-- The glob pattern `'reddit_{}_{}_*'` from line 109. -/
def dedup_glob (subreddit id : String) : String :=
  dedup_stem subreddit id ++ "*"

/-- The filesystem content of the download directory, as file names.
`glob.glob('reddit_{sub}_{id}_*')` returns the files whose name starts with
the stem (`*` matches any characters within a file name). -/
def glob_matches (files : List String) (subreddit id : String) : List String :=
  files.filter (fun f => (dedup_stem subreddit id).data.isPrefixOf f.data)

/-- The for-loop of lines 118-121: enumerate the resolved image URLs from
`index` on, name each one `reddit_{sub}_{id}_{index:02d}_{filename}` and
download it; a raised exception aborts the remaining iterations. -/
def download_images (net : Network) (subreddit id : String) :
    Nat → List String → List Effect × Except PyError Unit
  | _, [] => ([], .ok ())
  | index, image_url :: rest =>
    match (download_image net image_url
        ("reddit_" ++ subreddit ++ "_" ++ id ++ "_" ++ fmt02 index ++ "_"
          ++ image_filename_of image_url)).2 with
    | .error e =>
      ((download_image net image_url
          ("reddit_" ++ subreddit ++ "_" ++ id ++ "_" ++ fmt02 index ++ "_"
            ++ image_filename_of image_url)).1, .error e)
    | .ok _ =>
      ((download_image net image_url
          ("reddit_" ++ subreddit ++ "_" ++ id ++ "_" ++ fmt02 index ++ "_"
            ++ image_filename_of image_url)).1
         ++ (download_images net subreddit id (index + 1) rest).1,
       (download_images net subreddit id (index + 1) rest).2)

/-- The per-submission body of the loop at lines 104-134: skip on low score,
skip when the deduplication glob matches, otherwise resolve through
`imgur_handler` for URLs containing `imgur.com/` and download each image with
an indexed name, or, for other URLs, HEAD the raw URL, index the
`Content-Type` header unconditionally, and either download under an unindexed
name or log a warning. -/
def process_submission (net : Network) (subreddit : String) (score : Int)
    (files : List String) (submission : Submission) :
    List Effect × Except PyError Unit :=
  if submission.score < score then
    ([.logInfo ("Score too low (" ++ toString submission.score ++ "): "
        ++ submission.title ++ " at " ++ submission.url)], .ok ())
  else if (glob_matches files subreddit submission.id).length > 0 then
    ([.globCheck (dedup_glob subreddit submission.id),
      .logInfo ("Already downloaded: " ++ submission.title ++ " at " ++ submission.url)],
     .ok ())
  else if pyIn "imgur.com/" submission.url then
    match (imgur_handler net submission.url).2 with
    | .error e =>
      (.globCheck (dedup_glob subreddit submission.id) :: (imgur_handler net submission.url).1,
       .error e)
    | .ok image_urls =>
      (.globCheck (dedup_glob subreddit submission.id)
         :: ((imgur_handler net submission.url).1
              ++ (download_images net subreddit submission.id 0 image_urls).1),
       (download_images net subreddit submission.id 0 image_urls).2)
  else
    match net.head submission.url false with
    | .error e =>
      ([.globCheck (dedup_glob subreddit submission.id), .headReq submission.url false],
       .error e)
    | .ok response =>
      match response.contentType with
      | none =>
        ([.globCheck (dedup_glob subreddit submission.id), .headReq submission.url false],
         .error (.keyError "Content-Type"))
      | some ct =>
        if pyIn "image/" ct then
          (.globCheck (dedup_glob subreddit submission.id)
             :: .headReq submission.url false
             :: (download_image net submission.url
                  ("reddit_" ++ subreddit ++ "_" ++ submission.id ++ "_"
                    ++ image_filename_of submission.url)).1,
           (download_image net submission.url
                ("reddit_" ++ subreddit ++ "_" ++ submission.id ++ "_"
                  ++ image_filename_of submission.url)).2)
        else
          ([.globCheck (dedup_glob subreddit submission.id), .headReq submission.url false,
            .logWarning ("Content-Type not suitable (" ++ ct ++ ")")],
           .ok ())

/-- File names written during a trace, in order. -/
def filesWritten (trace : List Effect) : List String :=
  trace.filterMap fun e =>
    match e with
    | .fileWrite n => some n
    | _ => none

/-- Outcome of a whole run: normal completion, the caught
`InvalidSubreddit` / `RedirectException` path, or an uncaught exception
aborting the program. -/
inductive RunOutcome where
  | completed
  | invalidSubreddit
  | uncaught (e : PyError)
  deriving Repr, DecidableEq

/-- The `for submission in submissions` loop inside the try block (lines
103-139): process the submissions in order, extending the filesystem with
each file written; any raised `PyError` escapes the loop uncaught. -/
def run_submissions (net : Network) (subreddit : String) (score : Int) :
    List String → List Submission → List Effect × RunOutcome
  | _, [] => ([], .completed)
  | files, submission :: rest =>
    match (process_submission net subreddit score files submission).2 with
    | .error e => ((process_submission net subreddit score files submission).1, .uncaught e)
    | .ok _ =>
      ((process_submission net subreddit score files submission).1
         ++ (run_submissions net subreddit score
              (files ++ filesWritten (process_submission net subreddit score files submission).1)
              rest).1,
       (run_submissions net subreddit score
            (files ++ filesWritten (process_submission net subreddit score files submission).1)
            rest).2)

/-- The listing collaborator result for one period: either a ranked list of
submissions or the praw `InvalidSubreddit` condition raised when iterating. -/
inductive Listing where
  | ok (subs : List Submission)
  | invalidSubreddit

/-- The praw collaborator for the chosen subreddit: the three top listings
the script can request. -/
structure RedditApi where
  top_day : Listing
  top_week : Listing
  top_month : Listing

/-- Embedding of `reddit_image_downloader(subreddit, period, score, max,
download_location)` (lines 85-139).  The `submissions` variable is bound
only when `period` is one of `day`, `week`, `month`; otherwise the for-loop
raises an uncaught `NameError`.  The praw `InvalidSubreddit` and
`RedirectException` errors are the only ones caught. -/
def reddit_image_downloader (api : RedditApi) (net : Network) (subreddit : String)
    (period : String) (score : Int) (max : Nat) (files : List String) :
    List Effect × RunOutcome :=
  let listing :=
    if period = "day" then some api.top_day
    else if period = "week" then some api.top_week
    else if period = "month" then some api.top_month
    else none
  match listing with
  | none => ([], .uncaught (.nameError "submissions"))
  | some .invalidSubreddit =>
    ([.logError ("Invalid subreddit: " ++ subreddit)], .invalidSubreddit)
  | some (.ok subs) => run_submissions net subreddit score files (subs.take max)

/-- From `getargs` (line 149): the `--period` option is declared with only a
help string, a default and a type; no `choices` restriction is attached. -/
def period_choices : Option (List String) := none

/-- Argparse validation of a `--period` value: with no `choices` declared,
every string is accepted. -/
def cli_accepts_period (p : String) : Bool :=
  match period_choices with
  | none => true
  | some cs => cs.contains p

/-- The basename operation as the specification words it: strip the query
string and the fragment, then take the final path segment. -/
def basename_spec (u : String) : String :=
  ⟨afterLastChar '/' (takeUntilChar '#' (takeUntilChar '?' u.data))⟩

/-- A list is a prefix of itself followed by anything. -/
theorem list_isPrefixOf_append (l t : List Char) : l.isPrefixOf (l ++ t) = true := by
  induction l with
  | nil => simp [List.isPrefixOf]
  | cons c cs ih => simp [List.isPrefixOf, ih]

/-- The deduplication stem is a prefix of any file name built by appending
to it. -/
theorem dedup_stem_isPrefixOf (subreddit id t : String) :
    (dedup_stem subreddit id).data.isPrefixOf (dedup_stem subreddit id ++ t).data = true := by
  rw [String.data_append]
  exact list_isPrefixOf_append _ _

/-- Membership in the written files of a trace is exactly a write event in
the trace. -/
theorem mem_filesWritten (n : String) (tr : List Effect) :
    n ∈ filesWritten tr ↔ Effect.fileWrite n ∈ tr := by
  induction tr with
  | nil => simp [filesWritten]
  | cons e tr ih =>
    unfold filesWritten at ih ⊢
    cases e <;> simp [List.filterMap_cons, ih]

theorem filesWritten_append (a b : List Effect) :
    filesWritten (a ++ b) = filesWritten a ++ filesWritten b := by
  unfold filesWritten
  exact List.filterMap_append a b _

theorem glob_matches_append (a b : List String) (subreddit id : String) :
    glob_matches (a ++ b) subreddit id
      = glob_matches a subreddit id ++ glob_matches b subreddit id := by
  unfold glob_matches
  simp [List.filter_append]

/-- A file whose name extends the deduplication stem makes the glob check
succeed. -/
theorem glob_matches_ne_nil (files : List String) (subreddit id n : String)
    (hmem : n ∈ files)
    (hpre : (dedup_stem subreddit id).data.isPrefixOf n.data = true) :
    glob_matches files subreddit id ≠ [] := by
  unfold glob_matches
  intro hnil
  exact absurd hpre (by simpa using List.filter_eq_nil_iff.mp hnil n hmem)

/-- `imgur_handler` only probes; it never writes a file. -/
theorem filesWritten_imgur_handler (net : Network) (url : String) :
    filesWritten (imgur_handler net url).1 = [] := by
  unfold imgur_handler
  repeat' split
  all_goals rfl

theorem imgur_handler_no_write (net : Network) (url n : String)
    (h : Effect.fileWrite n ∈ (imgur_handler net url).1) : False := by
  have hm := (mem_filesWritten n _).mpr h
  rw [filesWritten_imgur_handler] at hm
  simp at hm

/-- `download_image` writes at most the file name it was given. -/
theorem download_image_write_eq (net : Network) (u f n : String)
    (h : Effect.fileWrite n ∈ (download_image net u f).1) : n = f := by
  unfold download_image at h
  repeat' split at h
  all_goals simp at h
  all_goals exact h

/-- Every file written by the download loop is named after some resolved
image URL and its enumeration index. -/
theorem download_images_write_shape (net : Network) (subreddit id : String) :
    ∀ (urls : List String) (index : Nat) (n : String),
      Effect.fileWrite n ∈ (download_images net subreddit id index urls).1 →
      ∃ i u, urls.get? i = some u
        ∧ n = "reddit_" ++ subreddit ++ "_" ++ id ++ "_" ++ fmt02 (index + i) ++ "_"
            ++ image_filename_of u := by
  intro urls
  induction urls with
  | nil =>
    intro index n h
    simp [download_images] at h
  | cons u rest ih =>
    intro index n h
    unfold download_images at h
    split at h
    · refine ⟨0, u, rfl, ?_⟩
      rw [Nat.add_zero]
      exact download_image_write_eq net u _ n h
    · rw [List.mem_append] at h
      rcases h with h | h
      · refine ⟨0, u, rfl, ?_⟩
        rw [Nat.add_zero]
        exact download_image_write_eq net u _ n h
      · obtain ⟨i, u2, hget, hn⟩ := ih (index + 1) n h
        refine ⟨i + 1, u2, hget, ?_⟩
        have hidx : index + (i + 1) = index + 1 + i := by omega
        rw [hidx]
        exact hn

/-- Dissection of any file write performed while processing one submission:
in the imgur branch the name carries the enumeration index of a resolved
image URL, in the fallback branch it is the unindexed name built from the
submission URL. -/
theorem process_write_shape (net : Network) (subreddit : String) (score : Int)
    (files : List String) (sub : Submission) (n : String)
    (hw : Effect.fileWrite n ∈ (process_submission net subreddit score files sub).1) :
    (pyIn "imgur.com/" sub.url = true →
      ∃ L, (imgur_handler net sub.url).2 = .ok L
        ∧ ∃ i u, L.get? i = some u
          ∧ n = "reddit_" ++ subreddit ++ "_" ++ sub.id ++ "_" ++ fmt02 i ++ "_"
              ++ image_filename_of u)
    ∧ (pyIn "imgur.com/" sub.url = false →
      n = "reddit_" ++ subreddit ++ "_" ++ sub.id ++ "_" ++ image_filename_of sub.url) := by
  by_cases hsc : sub.score < score
  · simp [process_submission, hsc] at hw
  by_cases hg : (glob_matches files subreddit sub.id).length > 0
  · simp [process_submission, hsc, hg] at hw
  cases him : pyIn "imgur.com/" sub.url with
  | true =>
    refine ⟨?_, by intro hf; simp [him] at hf⟩
    intro _
    cases hres : (imgur_handler net sub.url).2 with
    | error e =>
      exfalso
      simp [process_submission, hsc, hg, him, hres] at hw
      exact imgur_handler_no_write net sub.url n hw
    | ok L =>
      simp [process_submission, hsc, hg, him, hres] at hw
      rcases hw with hw | hw
      · exact (imgur_handler_no_write net sub.url n hw).elim
      · obtain ⟨i, u, hget, hn⟩ := download_images_write_shape net subreddit sub.id L 0 n hw
        rw [Nat.zero_add] at hn
        exact ⟨L, rfl, ⟨i, u, hget, hn⟩⟩
  | false =>
    refine ⟨by intro ht; simp [him] at ht, ?_⟩
    intro _
    cases hhead : net.head sub.url false with
    | error e => simp [process_submission, hsc, hg, him, hhead] at hw
    | ok r =>
      cases hct : r.contentType with
      | none => simp [process_submission, hsc, hg, him, hhead, hct] at hw
      | some ct =>
        cases hi : pyIn "image/" ct with
        | true =>
          simp [process_submission, hsc, hg, him, hhead, hct, hi] at hw
          exact download_image_write_eq net sub.url _ n hw
        | false =>
          simp [process_submission, hsc, hg, him, hhead, hct, hi] at hw

theorem process_write_stem (net : Network) (subreddit : String) (score : Int)
    (files : List String) (sub : Submission) (n : String)
    (hw : Effect.fileWrite n ∈ (process_submission net subreddit score files sub).1) :
    ∃ t, n = dedup_stem subreddit sub.id ++ t := by
  have h := process_write_shape net subreddit score files sub n hw
  cases him : pyIn "imgur.com/" sub.url with
  | true =>
    obtain ⟨L, _, i, u, _, hn⟩ := h.1 him
    exact ⟨fmt02 i ++ "_" ++ image_filename_of u,
      by rw [hn]; simp [dedup_stem, String.append_assoc]⟩
  | false =>
    exact ⟨image_filename_of sub.url,
      by rw [h.2 him]; simp [dedup_stem, String.append_assoc]⟩

theorem process_write_pre (net : Network) (subreddit : String) (score : Int)
    (files : List String) (sub : Submission) (n : String)
    (hmem : n ∈ filesWritten (process_submission net subreddit score files sub).1) :
    (dedup_stem subreddit sub.id).data.isPrefixOf n.data = true := by
  obtain ⟨t, ht⟩ := process_write_stem net subreddit score files sub n
    ((mem_filesWritten n _).mp hmem)
  rw [ht]
  exact dedup_stem_isPrefixOf subreddit sub.id t

theorem process_score_skip (net : Network) (subreddit : String) (score : Int)
    (files : List String) (sub : Submission) (hsc : sub.score < score) :
    process_submission net subreddit score files sub
      = ([.logInfo ("Score too low (" ++ toString sub.score ++ "): "
          ++ sub.title ++ " at " ++ sub.url)], .ok ()) := by
  simp [process_submission, hsc]

theorem process_glob_skip (net : Network) (subreddit : String) (score : Int)
    (files : List String) (sub : Submission)
    (hsc : ¬ sub.score < score)
    (hg : (glob_matches files subreddit sub.id).length > 0) :
    process_submission net subreddit score files sub
      = ([.globCheck (dedup_glob subreddit sub.id),
          .logInfo ("Already downloaded: " ++ sub.title ++ " at " ++ sub.url)], .ok ()) := by
  simp [process_submission, hsc, hg]

theorem process_congr_files (net : Network) (subreddit : String) (score : Int)
    (files files2 : List String) (sub : Submission)
    (h1 : glob_matches files subreddit sub.id = [])
    (h2 : glob_matches files2 subreddit sub.id = []) :
    process_submission net subreddit score files sub
      = process_submission net subreddit score files2 sub := by
  simp [process_submission, h1, h2]

theorem run_cons_ok (net : Network) (subreddit : String) (score : Int)
    (files : List String) (s : Submission) (rest : List Submission)
    (h : (process_submission net subreddit score files s).2 = .ok ()) :
    run_submissions net subreddit score files (s :: rest)
      = ((process_submission net subreddit score files s).1
          ++ (run_submissions net subreddit score
              (files ++ filesWritten (process_submission net subreddit score files s).1)
              rest).1,
         (run_submissions net subreddit score
              (files ++ filesWritten (process_submission net subreddit score files s).1)
              rest).2) := by
  simp [run_submissions, h]

theorem run_cons_err (net : Network) (subreddit : String) (score : Int)
    (files : List String) (s : Submission) (rest : List Submission) (e : PyError)
    (h : (process_submission net subreddit score files s).2 = .error e) :
    run_submissions net subreddit score files (s :: rest)
      = ((process_submission net subreddit score files s).1, .uncaught e) := by
  simp [run_submissions, h]

theorem run_completed_cons (net : Network) (subreddit : String) (score : Int)
    (files : List String) (s : Submission) (rest : List Submission)
    (h : (run_submissions net subreddit score files (s :: rest)).2 = .completed) :
    (process_submission net subreddit score files s).2 = .ok ()
    ∧ (run_submissions net subreddit score
        (files ++ filesWritten (process_submission net subreddit score files s).1)
        rest).2 = .completed := by
  cases hp : (process_submission net subreddit score files s).2 with
  | error e =>
    rw [run_cons_err net subreddit score files s rest e hp] at h
    cases h
  | ok u =>
    cases u
    rw [run_cons_ok net subreddit score files s rest hp] at h
    refine ⟨?_, h⟩
    exact rfl

/-- Re-running the whole submission loop on the filesystem produced by a
completed first run writes no file at all: every submission that wrote
something is now skipped by the glob check, and every submission that wrote
nothing behaves exactly as before. -/
theorem run_again_writes_nothing (net : Network) (subreddit : String) (score : Int) :
    ∀ (subs : List Submission) (files : List String),
      (run_submissions net subreddit score files subs).2 = .completed →
      filesWritten (run_submissions net subreddit score
        (files ++ filesWritten (run_submissions net subreddit score files subs).1) subs).1
        = [] := by
  intro subs
  induction subs with
  | nil =>
    intro files _
    simp [run_submissions, filesWritten]
  | cons s rest ih =>
    intro files hrun
    obtain ⟨hp, hrest⟩ := run_completed_cons net subreddit score files s rest hrun
    rw [run_cons_ok net subreddit score files s rest hp]
    simp only [filesWritten_append]
    set w1 := filesWritten (process_submission net subreddit score files s).1 with hw1def
    set Wr := filesWritten (run_submissions net subreddit score (files ++ w1) rest).1 with hWrdef
    by_cases hsc : s.score < score
    · have hA : (process_submission net subreddit score (files ++ (w1 ++ Wr)) s).2 = .ok () := by
        rw [process_score_skip net subreddit score _ s hsc]
      have hB : filesWritten (process_submission net subreddit score (files ++ (w1 ++ Wr)) s).1
          = [] := by
        rw [process_score_skip net subreddit score _ s hsc]
        rfl
      rw [run_cons_ok net subreddit score _ s rest hA, filesWritten_append, hB, List.append_nil]
      simp only [List.nil_append]
      rw [← List.append_assoc]
      exact ih (files ++ w1) hrest
    · by_cases hgF : glob_matches (files ++ (w1 ++ Wr)) subreddit s.id = []
      · have hsplit := glob_matches_append files (w1 ++ Wr) subreddit s.id
        rw [hgF] at hsplit
        have hgfiles : glob_matches files subreddit s.id = [] :=
          (List.append_eq_nil.mp hsplit.symm).1
        have hw1nil : w1 = [] := by
          cases hcase : w1 with
          | nil => rfl
          | cons m ms =>
            exfalso
            have hmem : m ∈ filesWritten (process_submission net subreddit score files s).1 := by
              rw [← hw1def, hcase]
              exact List.mem_cons_self m ms
            have hpre := process_write_pre net subreddit score files s m hmem
            have hmemF : m ∈ files ++ (w1 ++ Wr) := by
              refine List.mem_append_right files (List.mem_append_left Wr ?_)
              rw [hcase]
              exact List.mem_cons_self m ms
            exact glob_matches_ne_nil _ subreddit s.id m hmemF hpre hgF
        have hcongr : process_submission net subreddit score (files ++ (w1 ++ Wr)) s
            = process_submission net subreddit score files s :=
          process_congr_files net subreddit score _ files s hgF hgfiles
        have hA : (process_submission net subreddit score (files ++ (w1 ++ Wr)) s).2
            = .ok () := by
          rw [hcongr]
          exact hp
        have hB : filesWritten (process_submission net subreddit score (files ++ (w1 ++ Wr)) s).1
            = [] := by
          rw [hcongr, ← hw1def]
          exact hw1nil
        rw [run_cons_ok net subreddit score _ s rest hA, filesWritten_append, hB,
          List.append_nil]
        simp only [List.nil_append]
        rw [← List.append_assoc]
        exact ih (files ++ w1) hrest
      · have hglen : (glob_matches (files ++ (w1 ++ Wr)) subreddit s.id).length > 0 :=
          List.length_pos.mpr hgF
        have hA : (process_submission net subreddit score (files ++ (w1 ++ Wr)) s).2
            = .ok () := by
          rw [process_glob_skip net subreddit score _ s hsc hglen]
        have hB : filesWritten (process_submission net subreddit score (files ++ (w1 ++ Wr)) s).1
            = [] := by
          rw [process_glob_skip net subreddit score _ s hsc hglen]
          rfl
        rw [run_cons_ok net subreddit score _ s rest hA, filesWritten_append, hB,
          List.append_nil]
        simp only [List.nil_append]
        rw [← List.append_assoc]
        exact ih (files ++ w1) hrest

def isNetworkRequest : Effect → Bool
  | .headReq _ _ => true
  | .getReq _ => true
  | _ => false

def isFileWrite : Effect → Bool
  | .fileWrite _ => true
  | _ => false

def isGlobCheck : Effect → Bool
  | .globCheck _ => true
  | _ => false

def netRedirect : Network where
  head := fun url _ =>
    if url = "http://imgur.com/abc" then
      .ok { status := 301, location := some "http://i.imgur.com/abc.jpg" }
    else .error .connectionError
  get := fun _ => .error .connectionError

/-- C1: the single-image 301 branch is supposed to resolve to the
`Location` header value with no follow-up GET; on the code the HEAD is the
only request made, but the resolved list comes back empty because the
`Location` value read into `image_url` is never appended. -/
theorem c1_redirect_location_dropped :
    pyIn "//imgur.com/a/" "http://imgur.com/abc" = false
    ∧ pyIn "//imgur.com/" "http://imgur.com/abc" = true
    ∧ netRedirect.head "http://imgur.com/abc" false
        = .ok { status := 301, location := some "http://i.imgur.com/abc.jpg" }
    ∧ imgur_handler netRedirect "http://imgur.com/abc"
        = ([.headReq "http://imgur.com/abc" false], .ok [])
    ∧ ([] : List String) ≠ ["http://i.imgur.com/abc.jpg"] :=
  ⟨by decide, by decide, rfl, rfl, by decide⟩

/-- C4: for an album URL whose GET yields HTTP 200, the handler returns the
selected anchors' hrefs in document order, each schema-less one prefixed
with `http:`; a non-200 status yields the empty list. -/
theorem c4_album_document_order (net : Network) (url : String) (r : Response)
    (halb : pyIn "//imgur.com/a/" url = true)
    (hget : net.get url = .ok r) :
    (r.status = 200 →
      imgur_handler net url = ([.getReq url], .ok (r.albumLinks.map schemaFix)))
    ∧ (r.status ≠ 200 →
      imgur_handler net url = ([.getReq url], .ok [])) := by
  constructor <;> intro h <;> simp [imgur_handler, halb, hget, h]

def netAlbum : Network where
  head := fun _ _ => .error .connectionError
  get := fun url =>
    if url = "http://imgur.com/a/good" then
      .ok { status := 200,
            albumLinks := ["//a.com/1.jpg", "http://b.com/2.png", "//c.com/3.gif"] }
    else if url = "http://imgur.com/a/bad" then
      .ok { status := 404 }
    else .error .connectionError

theorem c4_album_document_order_witness :
    imgur_handler netAlbum "http://imgur.com/a/good"
      = ([.getReq "http://imgur.com/a/good"],
         .ok ["http://a.com/1.jpg", "http://b.com/2.png", "http://c.com/3.gif"])
    ∧ imgur_handler netAlbum "http://imgur.com/a/bad"
      = ([.getReq "http://imgur.com/a/bad"], .ok []) :=
  ⟨(c4_album_document_order netAlbum "http://imgur.com/a/good"
      { status := 200,
        albumLinks := ["//a.com/1.jpg", "http://b.com/2.png", "//c.com/3.gif"] }
      (by decide) rfl).1 rfl,
   (c4_album_document_order netAlbum "http://imgur.com/a/bad"
      { status := 404 } (by decide) rfl).2 (by decide)⟩

/-- C5: for a single-image page URL whose HEAD (redirects disabled) returns
HTTP 200, the handler issues a follow-up GET and returns the href of the
`image_src` link element, schema-fixed, as a one-element list. -/
theorem c5_single_page_image_src (net : Network) (url : String) (r1 r2 : Response)
    (href : String)
    (halb : pyIn "//imgur.com/a/" url = false)
    (hpage : pyIn "//imgur.com/" url = true)
    (hhead : net.head url false = .ok r1)
    (h200 : r1.status = 200)
    (hget : net.get url = .ok r2)
    (hhref : r2.imageSrcHref = some href) :
    imgur_handler net url
      = ([.headReq url false, .getReq url], .ok [schemaFix href]) := by
  simp [imgur_handler, halb, hpage, hhead, h200, hget, hhref]

def netSingle : Network where
  head := fun url _ =>
    if url = "http://imgur.com/def" then .ok { status := 200 }
    else .error .connectionError
  get := fun url =>
    if url = "http://imgur.com/def" then
      .ok { status := 200, imageSrcHref := some "//i.imgur.com/def.png" }
    else .error .connectionError

theorem c5_single_page_image_src_witness :
    imgur_handler netSingle "http://imgur.com/def"
      = ([.headReq "http://imgur.com/def" false, .getReq "http://imgur.com/def"],
         .ok ["http://i.imgur.com/def.png"]) :=
  c5_single_page_image_src netSingle "http://imgur.com/def"
    { status := 200 } { status := 200, imageSrcHref := some "//i.imgur.com/def.png" }
    "//i.imgur.com/def.png" (by decide) (by decide) rfl rfl rfl rfl


/-- C8: a submission below the score threshold produces only the skip log
line: no network request, no file write, and not even the glob
deduplication check is evaluated. -/
theorem c8_low_score_skips_everything (net : Network) (subreddit : String) (score : Int)
    (files : List String) (sub : Submission) (h : sub.score < score) :
    process_submission net subreddit score files sub
      = ([.logInfo ("Score too low (" ++ toString sub.score ++ "): "
          ++ sub.title ++ " at " ++ sub.url)], .ok ())
    ∧ (process_submission net subreddit score files sub).1.all
        (fun e => !isNetworkRequest e && !isFileWrite e && !isGlobCheck e) = true := by
  have hp := process_score_skip net subreddit score files sub h
  refine ⟨hp, ?_⟩
  rw [hp]
  rfl

def subLow : Submission := { id := "low", title := "L", url := "u", score := 5 }

theorem c8_low_score_skips_everything_witness :
    process_submission netAlbum "foo" 500 [] subLow
      = ([.logInfo ("Score too low (" ++ toString (5 : Int) ++ "): " ++ "L" ++ " at " ++ "u")],
         .ok ())
    ∧ (process_submission netAlbum "foo" 500 [] subLow).1.all
        (fun e => !isNetworkRequest e && !isFileWrite e && !isGlobCheck e) = true :=
  c8_low_score_skips_everything netAlbum "foo" 500 [] subLow (by decide)

/-- C9: a period outside day, week, month leaves `submissions` unbound, so
the run aborts with an uncaught NameError; and the CLI accepts any string
for `--period` because no choices restriction is declared. -/
theorem c9_invalid_period_raises_name_error (api : RedditApi) (net : Network)
    (subreddit period : String) (score : Int) (max : Nat) (files : List String)
    (hd : period ≠ "day") (hw : period ≠ "week") (hm : period ≠ "month") :
    reddit_image_downloader api net subreddit period score max files
      = ([], .uncaught (.nameError "submissions"))
    ∧ cli_accepts_period period = true := by
  refine ⟨?_, rfl⟩
  simp [reddit_image_downloader, hd, hw, hm]

def apiEmpty : RedditApi :=
  { top_day := .ok [], top_week := .ok [], top_month := .ok [] }

theorem c9_invalid_period_raises_name_error_witness :
    reddit_image_downloader apiEmpty netAlbum "pics" "year" 500 25 []
      = ([], .uncaught (.nameError "submissions"))
    ∧ cli_accepts_period "year" = true :=
  c9_invalid_period_raises_name_error apiEmpty netAlbum "pics" "year" 500 25 []
    (by decide) (by decide) (by decide)

/-- C10: in the fallback branch a HEAD response without a Content-Type
header raises a KeyError that nothing in the loop catches, so the whole run
aborts and later submissions are never processed. -/
theorem c10_missing_content_type_uncaught (net : Network) (subreddit : String) (score : Int)
    (files : List String) (sub : Submission) (rest : List Submission) (r : Response)
    (hsc : ¬ sub.score < score)
    (hglob : glob_matches files subreddit sub.id = [])
    (him : pyIn "imgur.com/" sub.url = false)
    (hhead : net.head sub.url false = .ok r)
    (hct : r.contentType = none) :
    process_submission net subreddit score files sub
      = ([.globCheck (dedup_glob subreddit sub.id), .headReq sub.url false],
         .error (.keyError "Content-Type"))
    ∧ run_submissions net subreddit score files (sub :: rest)
      = ([.globCheck (dedup_glob subreddit sub.id), .headReq sub.url false],
         .uncaught (.keyError "Content-Type")) := by
  have hg0 : ¬ (glob_matches files subreddit sub.id).length > 0 := by
    rw [hglob]
    simp
  have hp : process_submission net subreddit score files sub
      = ([.globCheck (dedup_glob subreddit sub.id), .headReq sub.url false],
         .error (.keyError "Content-Type")) := by
    simp [process_submission, hsc, hg0, him, hhead, hct]
  exact ⟨hp, by rw [run_cons_err net subreddit score files sub rest _ (by rw [hp])]; rw [hp]⟩

def netNoCT : Network where
  head := fun url _ =>
    if url = "http://example.org/page" then .ok { status := 200 }
    else .error .connectionError
  get := fun _ => .error .connectionError

def subNoCT : Submission :=
  { id := "aaa", title := "A", url := "http://example.org/page", score := 1000 }

def subNext : Submission :=
  { id := "bbb", title := "B", url := "http://example.org/other", score := 1000 }

theorem c10_missing_content_type_uncaught_witness :
    process_submission netNoCT "pics" 500 [] subNoCT
      = ([.globCheck (dedup_glob "pics" "aaa"), .headReq "http://example.org/page" false],
         .error (.keyError "Content-Type"))
    ∧ run_submissions netNoCT "pics" 500 [] [subNoCT, subNext]
      = ([.globCheck (dedup_glob "pics" "aaa"), .headReq "http://example.org/page" false],
         .uncaught (.keyError "Content-Type")) :=
  c10_missing_content_type_uncaught netNoCT "pics" 500 [] subNoCT [subNext]
    { status := 200 } (by decide) rfl (by decide) rfl rfl

/-- C2 counterexample: a resolution failure (here a fallback HEAD response
without a Content-Type header) does not degrade to "no images" for that
submission: it aborts the whole run uncaught, and the following submission
is never processed. -/
theorem c2_resolution_failure_aborts_run :
    run_submissions netNoCT "pics" 500 [] [subNoCT, subNext]
      = ([.globCheck (dedup_glob "pics" "aaa"), .headReq "http://example.org/page" false],
         .uncaught (.keyError "Content-Type")) := rfl

/-- C2 amended: an unhandled HTTP status during imgur single-page resolution
yields no images and the loop continues with the remaining submissions, but
a raised network error aborts the run uncaught. -/
theorem c2_amended_unhandled_status_continues (net : Network) (subreddit : String)
    (score : Int) (files : List String) (sub : Submission) (rest : List Submission)
    (hsc : ¬ sub.score < score)
    (hglob : glob_matches files subreddit sub.id = [])
    (him : pyIn "imgur.com/" sub.url = true)
    (halb : pyIn "//imgur.com/a/" sub.url = false)
    (hpage : pyIn "//imgur.com/" sub.url = true) :
    (∀ r, net.head sub.url false = .ok r → r.status ≠ 301 → r.status ≠ 200 →
      run_submissions net subreddit score files (sub :: rest)
        = ([.globCheck (dedup_glob subreddit sub.id), .headReq sub.url false]
            ++ (run_submissions net subreddit score files rest).1,
           (run_submissions net subreddit score files rest).2))
    ∧ (∀ e, net.head sub.url false = .error e →
      run_submissions net subreddit score files (sub :: rest)
        = ([.globCheck (dedup_glob subreddit sub.id), .headReq sub.url false],
           .uncaught e)) := by
  have hg0 : ¬ (glob_matches files subreddit sub.id).length > 0 := by
    rw [hglob]
    simp
  constructor
  · intro r hhead h301 h200
    have hp : process_submission net subreddit score files sub
        = ([.globCheck (dedup_glob subreddit sub.id), .headReq sub.url false], .ok ()) := by
      simp [process_submission, imgur_handler, hsc, hg0, him, halb, hpage, hhead,
        h301, h200, download_images]
    rw [run_cons_ok net subreddit score files sub rest (by rw [hp]), hp]
    simp [filesWritten]
  · intro e hhead
    have hp : process_submission net subreddit score files sub
        = ([.globCheck (dedup_glob subreddit sub.id), .headReq sub.url false], .error e) := by
      simp [process_submission, imgur_handler, hsc, hg0, him, halb, hpage, hhead]
    rw [run_cons_err net subreddit score files sub rest e (by rw [hp]), hp]

def netUnh : Network where
  head := fun url _ =>
    if url = "http://imgur.com/u1" then .ok { status := 404 }
    else .error .connectionError
  get := fun _ => .error .connectionError

def subU1 : Submission :=
  { id := "u1", title := "U1", url := "http://imgur.com/u1", score := 1000 }

def subU2 : Submission :=
  { id := "u2", title := "U2", url := "http://imgur.com/u2", score := 1000 }

theorem c2_amended_unhandled_status_continues_witness :
    (run_submissions netUnh "pics" 500 [] [subU1]
      = ([.globCheck (dedup_glob "pics" "u1"), .headReq "http://imgur.com/u1" false]
          ++ (run_submissions netUnh "pics" 500 [] []).1,
         (run_submissions netUnh "pics" 500 [] []).2))
    ∧ (run_submissions netUnh "pics" 500 [] [subU2]
      = ([.globCheck (dedup_glob "pics" "u2"), .headReq "http://imgur.com/u2" false],
         .uncaught .connectionError)) :=
  ⟨(c2_amended_unhandled_status_continues netUnh "pics" 500 [] subU1 []
      (by decide) rfl (by decide) (by decide) (by decide)).1
    { status := 404 } rfl (by decide) (by decide),
   (c2_amended_unhandled_status_continues netUnh "pics" 500 [] subU2 []
      (by decide) rfl (by decide) (by decide) (by decide)).2
    .connectionError rfl⟩


def netMImgur : Network where
  head := fun url _ =>
    if url = "https://m.imgur.com/x" then
      .ok { status := 200, contentType := some "image/png", contentLength := some 100 }
    else .error .connectionError
  get := fun url =>
    if url = "https://m.imgur.com/x" then
      .ok { status := 200, contentType := some "image/png", contentLength := some 100 }
    else .error .connectionError

def subM : Submission :=
  { id := "mmm", title := "M", url := "https://m.imgur.com/x", score := 1000 }

/-- C3 counterexample: `https://m.imgur.com/x` matches none of the three
recognized imgur patterns, and its HEAD would report an image content type,
yet because the URL contains `imgur.com/` the code routes it to the imgur
handler, which issues no request at all and resolves nothing. -/
theorem c3_unrecognized_imgur_url_not_probed :
    pyIn "//imgur.com/a/" "https://m.imgur.com/x" = false
    ∧ pyIn "//imgur.com/" "https://m.imgur.com/x" = false
    ∧ pyIn "//i.imgur.com/" "https://m.imgur.com/x" = false
    ∧ netMImgur.head "https://m.imgur.com/x" false
        = .ok { status := 200, contentType := some "image/png", contentLength := some 100 }
    ∧ imgur_handler netMImgur "https://m.imgur.com/x" = ([], .ok [])
    ∧ process_submission netMImgur "pics" 500 [] subM
        = ([.globCheck (dedup_glob "pics" "mmm")], .ok ()) :=
  ⟨by decide, by decide, by decide, rfl, rfl, rfl⟩

/-- C3 amended: for a URL that does not contain `imgur.com/`, the fallback
issues a HEAD against the raw URL; when the response carries a Content-Type
header containing `image/` it downloads exactly the raw URL, and when the
header is present without `image/` it performs no download and logs a
non-fatal warning. -/
theorem c3_amended_fallback_content_type (net : Network) (subreddit : String) (score : Int)
    (files : List String) (sub : Submission) (r : Response) (ct : String)
    (hsc : ¬ sub.score < score)
    (hglob : glob_matches files subreddit sub.id = [])
    (him : pyIn "imgur.com/" sub.url = false)
    (hhead : net.head sub.url false = .ok r)
    (hct : r.contentType = some ct) :
    (pyIn "image/" ct = true →
      process_submission net subreddit score files sub
        = (.globCheck (dedup_glob subreddit sub.id) :: .headReq sub.url false
            :: (download_image net sub.url
                ("reddit_" ++ subreddit ++ "_" ++ sub.id ++ "_"
                  ++ image_filename_of sub.url)).1,
           (download_image net sub.url
                ("reddit_" ++ subreddit ++ "_" ++ sub.id ++ "_"
                  ++ image_filename_of sub.url)).2))
    ∧ (pyIn "image/" ct = false →
      process_submission net subreddit score files sub
        = ([.globCheck (dedup_glob subreddit sub.id), .headReq sub.url false,
            .logWarning ("Content-Type not suitable (" ++ ct ++ ")")], .ok ())) := by
  have hg0 : ¬ (glob_matches files subreddit sub.id).length > 0 := by
    rw [hglob]
    simp
  constructor <;> intro h <;> simp [process_submission, hsc, hg0, him, hhead, hct, h]

def netFB : Network where
  head := fun url _ =>
    if url = "http://a.org/p.png" then
      .ok { status := 200, contentType := some "image/png", contentLength := some 10 }
    else if url = "http://a.org/page" then
      .ok { status := 200, contentType := some "text/html" }
    else .error .connectionError
  get := fun url =>
    if url = "http://a.org/p.png" then
      .ok { status := 200, contentType := some "image/png", contentLength := some 10 }
    else .error .connectionError

def subP : Submission :=
  { id := "ppp", title := "P", url := "http://a.org/p.png", score := 1000 }

def subH : Submission :=
  { id := "hhh", title := "H", url := "http://a.org/page", score := 1000 }

theorem c3_amended_fallback_content_type_witness :
    (process_submission netFB "pics" 500 [] subP
      = (.globCheck (dedup_glob "pics" "ppp") :: .headReq "http://a.org/p.png" false
          :: (download_image netFB "http://a.org/p.png"
              ("reddit_" ++ "pics" ++ "_" ++ "ppp" ++ "_"
                ++ image_filename_of "http://a.org/p.png")).1,
         (download_image netFB "http://a.org/p.png"
              ("reddit_" ++ "pics" ++ "_" ++ "ppp" ++ "_"
                ++ image_filename_of "http://a.org/p.png")).2))
    ∧ (process_submission netFB "pics" 500 [] subH
      = ([.globCheck (dedup_glob "pics" "hhh"), .headReq "http://a.org/page" false,
          .logWarning ("Content-Type not suitable (" ++ "text/html" ++ ")")], .ok ())) :=
  ⟨(c3_amended_fallback_content_type netFB "pics" 500 [] subP
      { status := 200, contentType := some "image/png", contentLength := some 10 }
      "image/png" (by decide) rfl (by decide) rfl rfl).1 (by decide),
   (c3_amended_fallback_content_type netFB "pics" 500 [] subH
      { status := 200, contentType := some "text/html" }
      "text/html" (by decide) rfl (by decide) rfl rfl).2 (by decide)⟩


def netC6 : Network where
  head := fun url _ =>
    if url = "http://example.com/pic.jpg" then
      .ok { status := 200, contentType := some "image/jpeg" }
    else .error .connectionError
  get := fun url =>
    if url = "http://example.com/pic.jpg" then
      .ok { status := 200, contentLength := some 1000 }
    else .error .connectionError

def subF : Submission :=
  { id := "xyz", title := "F", url := "http://example.com/pic.jpg", score := 1000 }

/-- C6 counterexample: an image downloaded through the fallback branch is
written under `reddit_foo_xyz_pic.jpg`, with no `{index:02d}` component, so
not every downloaded image carries an index; moreover the code's basename
takes the last `/`-segment before stripping query and fragment, which
differs from the claimed strip-first order when the query contains `/`. -/
theorem c6_fallback_name_has_no_index :
    process_submission netC6 "foo" 500 [] subF
      = ([.globCheck (dedup_glob "foo" "xyz"), .headReq "http://example.com/pic.jpg" false,
          .getReq "http://example.com/pic.jpg", .fileWrite "reddit_foo_xyz_pic.jpg"],
         .ok ())
    ∧ ("reddit_foo_xyz_pic.jpg" : String) ≠ "reddit_foo_xyz_00_pic.jpg"
    ∧ image_filename_of "http://x.com/pic.jpg?a=/b" = "b"
    ∧ basename_spec "http://x.com/pic.jpg?a=/b" = "pic.jpg" :=
  ⟨rfl, by decide, by decide, by decide⟩

/-- C6 amended: every file written while processing a submission is named
`reddit_{subreddit}_{id}_{index:02d}_{basename}` for the index of the
resolved image when the imgur handler was used, and `reddit_{subreddit}_{id}_{basename}`
without an index in the fallback branch, where basename takes the final
`/`-segment and then strips the fragment and the query; the claimed example
filename holds. -/
theorem c6_amended_download_naming (net : Network) (subreddit : String) (score : Int)
    (files : List String) (sub : Submission) (n : String)
    (hw : Effect.fileWrite n ∈ (process_submission net subreddit score files sub).1) :
    ((pyIn "imgur.com/" sub.url = true →
        ∃ L, (imgur_handler net sub.url).2 = .ok L
          ∧ ∃ i u, L.get? i = some u
            ∧ n = "reddit_" ++ subreddit ++ "_" ++ sub.id ++ "_" ++ fmt02 i ++ "_"
                ++ image_filename_of u)
      ∧ (pyIn "imgur.com/" sub.url = false →
        n = "reddit_" ++ subreddit ++ "_" ++ sub.id ++ "_" ++ image_filename_of sub.url))
    ∧ ("reddit_" ++ "foo" ++ "_" ++ "xyz" ++ "_" ++ fmt02 0 ++ "_"
        ++ image_filename_of "http://i.imgur.com/pic.jpg?x=1") = "reddit_foo_xyz_00_pic.jpg" :=
  ⟨process_write_shape net subreddit score files sub n hw, by decide⟩

theorem c6_amended_download_naming_witness :
    ((pyIn "imgur.com/" subF.url = true →
        ∃ L, (imgur_handler netC6 subF.url).2 = .ok L
          ∧ ∃ i u, L.get? i = some u
            ∧ "reddit_foo_xyz_pic.jpg" = "reddit_" ++ "foo" ++ "_" ++ subF.id ++ "_"
                ++ fmt02 i ++ "_" ++ image_filename_of u)
      ∧ (pyIn "imgur.com/" subF.url = false →
        "reddit_foo_xyz_pic.jpg" = "reddit_" ++ "foo" ++ "_" ++ subF.id ++ "_"
            ++ image_filename_of subF.url))
    ∧ ("reddit_" ++ "foo" ++ "_" ++ "xyz" ++ "_" ++ fmt02 0 ++ "_"
        ++ image_filename_of "http://i.imgur.com/pic.jpg?x=1") = "reddit_foo_xyz_00_pic.jpg" :=
  c6_amended_download_naming netC6 "foo" 500 [] subF "reddit_foo_xyz_pic.jpg" (by decide)

/-- C7: a submission already represented by a file extending its
deduplication stem is skipped with no network request and no file write; and
after a completed run, running the loop again over the same submissions on
the resulting filesystem writes nothing new. -/
theorem c7_dedup_skip_and_idempotent_rerun (net : Network) (subreddit : String) (score : Int)
    (files : List String) (sub : Submission) (subs : List Submission)
    (hglob : glob_matches files subreddit sub.id ≠ [])
    (hrun : (run_submissions net subreddit score files subs).2 = .completed) :
    (process_submission net subreddit score files sub).1.all
        (fun e => !isNetworkRequest e && !isFileWrite e) = true
    ∧ filesWritten (run_submissions net subreddit score
        (files ++ filesWritten (run_submissions net subreddit score files subs).1) subs).1
      = [] := by
  refine ⟨?_, run_again_writes_nothing net subreddit score subs files hrun⟩
  by_cases hsc : sub.score < score
  · rw [process_score_skip net subreddit score files sub hsc]
    rfl
  · rw [process_glob_skip net subreddit score files sub hsc (List.length_pos.mpr hglob)]
    rfl

def subDD : Submission :=
  { id := "ddd", title := "D", url := "http://imgur.com/d", score := 1000 }

theorem c7_dedup_skip_and_idempotent_rerun_witness :
    (process_submission netAlbum "pics" 500 ["reddit_pics_ddd_00_x.jpg"] subDD).1.all
        (fun e => !isNetworkRequest e && !isFileWrite e) = true
    ∧ filesWritten (run_submissions netAlbum "pics" 500
        (["reddit_pics_ddd_00_x.jpg"]
          ++ filesWritten (run_submissions netAlbum "pics" 500
              ["reddit_pics_ddd_00_x.jpg"] [subDD]).1) [subDD]).1
      = [] :=
  c7_dedup_skip_and_idempotent_rerun netAlbum "pics" 500 ["reddit_pics_ddd_00_x.jpg"]
    subDD [subDD] (by decide) rfl

end ImgurDownloader
